import Mathlib

/-!
Shallow embedding of `zbus-xml-match` (src/lib.rs): three resolver functions
that look up type signatures in a parsed D-Bus introspection document.

The XML file reading and parsing are external collaborators (delegated to
`std::fs` and `zbus::xml::Node::from_str`); the embedding therefore takes the
parsed document (`Node`) as input.  `zvariant::Signature` wraps a string and
`Signature::from_string_unchecked` performs no validation, so `Signature` is
modelled as `String` and `from_string_unchecked` as the identity on the
underlying string.  The two error constructors the code produces,
`zbus::Error::InterfaceNotFound` and `zbus::Error::MissingParameter(&str)`,
are modelled by the inductive `ZbusError`.
-/

namespace ZbusXmlMatch

/-- An `<arg>` node: optional `name`, optional `direction`, mandatory type
string (`Arg::ty` in zbus). -/
structure Arg where
  name : Option String
  direction : Option String
  ty : String
deriving DecidableEq, Repr

/-- A `<method>` node: name and arguments in declaration order. -/
structure Method where
  name : String
  args : List Arg
deriving DecidableEq, Repr

/-- A `<signal>` node: name and arguments in declaration order. -/
structure Signal where
  name : String
  args : List Arg
deriving DecidableEq, Repr

/-- An `<interface>` node: name, its methods and its signals, each an ordered
list (zbus `Interface::methods` / `Interface::signals`). -/
structure Interface where
  name : String
  methods : List Method
  signals : List Signal
deriving DecidableEq, Repr

/-- The parsed introspection document (`zbus::xml::Node`), exposing its
interfaces in document order. -/
structure Node where
  interfaces : List Interface
deriving DecidableEq, Repr

/-- The wire-format type descriptor.  `zvariant::Signature` wraps a string and
compares by its bytes, so the embedding uses the string itself. -/
abbrev Signature := String

/-- Model of `Signature::from_string_unchecked`: constructs a `Signature` from
a string with no validation whatsoever. -/
def Signature.from_string_unchecked (s : String) : Signature := s

/-- The error values produced by the resolvers (variants of `zbus::Error`
actually used by the code, boxed into `Box<dyn Error>` in the source). -/
inductive ZbusError where
  | interfaceNotFound
  | missingParameter (msg : String)
deriving DecidableEq, Repr

/-- Embedding of `get_signature_of_signal_body_type` (src/lib.rs:30-62),
starting after the external file read and XML parse: find the interface by
name, find the signal by name, find the argument whose (optional) name equals
`kind`, and return its type string as an unchecked signature. -/
def get_signature_of_signal_body_type (node : Node) (interface_name : String)
    (member_name : String) (kind : Option String) : Except ZbusError Signature :=
  match node.interfaces.find? (fun iface => iface.name == interface_name) with
  | none => .error .interfaceNotFound
  | some iface =>
    match iface.signals.find? (fun signal => signal.name == member_name) with
    | none => .error (.missingParameter "no \x7bmember_name\x7d found in \x7bsignals:?\x7d")
    | some signal =>
      match signal.args.find? (fun arg => arg.name == kind) with
      | none => .error (.missingParameter "no \x7bkind\x7d found in \x7bargs:?\x7d")
      | some arg => .ok (Signature.from_string_unchecked arg.ty)

/-- Embedding of `get_signature_of_method_return_type_from_xml`
(src/lib.rs:85-118): find the interface, find the method, find the first
argument whose direction is `Some "out"`, and return its type string as an
unchecked signature. -/
def get_signature_of_method_return_type_from_xml (node : Node)
    (interface_name : String) (member_name : String) : Except ZbusError Signature :=
  match node.interfaces.find? (fun iface => iface.name == interface_name) with
  | none => .error .interfaceNotFound
  | some iface =>
    match iface.methods.find? (fun method => method.name == member_name) with
    | none => .error (.missingParameter "no \x7bmember_name\x7d found in \x7bmethods:?\x7d")
    | some method =>
      match method.args.find? (fun arg => arg.direction == some "out") with
      | none => .error (.missingParameter "no argument with \x27out\x27 direction in \x7bargs:?\x7d")
      | some arg => .ok (Signature.from_string_unchecked arg.ty)

/-- Embedding of `get_signature_of_atspi_event_from_xml` (src/lib.rs:141-171):
find the interface, find the signal, concatenate all its arguments' type
strings in declaration order, and wrap the concatenation in parentheses
(the source inserts a leading character and pushes a trailing one). -/
def get_signature_of_atspi_event_from_xml (node : Node)
    (interface_name : String) (member_name : String) : Except ZbusError Signature :=
  match node.interfaces.find? (fun iface => iface.name == interface_name) with
  | none => .error .interfaceNotFound
  | some iface =>
    match iface.signals.find? (fun signal => signal.name == member_name) with
    | none => .error (.missingParameter "no \x7bmember_name\x7d found in \x7bsignals:?\x7d")
    | some signal =>
      let signature := String.join (signal.args.map (fun arg => arg.ty))
      .ok (Signature.from_string_unchecked ("(" ++ signature ++ ")"))

/-!
Helper lemmas about `List.find?`, shared by the claim theorems below: the
resolvers' "first match in declaration order" behaviour all comes from
`Iterator::find`, embedded as `List.find?`.
-/

/-- When position `i` satisfies `p` and every earlier position does not,
`find?` returns exactly the element at position `i`. -/
theorem find?_eq_get_of_first {α : Type} (p : α → Bool) :
    ∀ (l : List α) (i : Nat) (hi : i < l.length),
      p (l.get ⟨i, hi⟩) = true →
      (∀ (j : Nat) (hj : j < i), p (l.get ⟨j, Nat.lt_trans hj hi⟩) = false) →
      l.find? p = some (l.get ⟨i, hi⟩)
  | a :: l, 0, _, hp, _ => by
    simp only [List.get] at hp ⊢
    simp [List.find?, hp]
  | a :: l, i + 1, hi, hp, hfirst => by
    have ha : p a = false := hfirst 0 (Nat.succ_pos i)
    have ih := find?_eq_get_of_first p l i (Nat.lt_of_succ_lt_succ hi) hp
      (fun j hj => hfirst (j + 1) (Nat.succ_lt_succ hj))
    simp only [List.get] at hp ⊢
    simp [List.find?, ha, ih]

/-- When no element satisfies `p`, `find?` returns `none`. -/
theorem find?_eq_none_of_all {α : Type} (p : α → Bool) (l : List α)
    (h : ∀ x ∈ l, p x = false) : l.find? p = none := by
  rw [List.find?_eq_none]
  intro x hx
  simp [h x hx]

/-!
Sample documents for the witnesses: one interface holding signals and methods
that exercise every lookup path.  The argument names `NodeAdded` and
`nodeadded` differ from `nodeAdded` only by case; `GetRole` carries two
`out`-direction arguments; `Shared` names both a method and a signal.
-/

/-- Arguments of the sample `AddAccessible` signal: two case-variant decoys, a
match for `nodeAdded`, and an unnamed argument. -/
def cacheSignalArgs : List Arg :=
  [{ name := some "NodeAdded", direction := none, ty := "i" },
   { name := some "nodeadded", direction := none, ty := "u" },
   { name := some "nodeAdded", direction := none, ty := "((so)(so)(so)iiassusau)" },
   { name := none, direction := none, ty := "s" }]

/-- Sample signal with case-variant argument names. -/
def addAccessible : Signal := { name := "AddAccessible", args := cacheSignalArgs }

/-- Sample signal with zero arguments. -/
def emptySignal : Signal := { name := "Empty", args := [] }

/-- Sample signal whose name coincides with a method's, and whose only
argument is named. -/
def sharedSignal : Signal :=
  { name := "Shared", args := [{ name := some "a", direction := none, ty := "b" }] }

/-- Sample signal whose only argument carries a malformed type string. -/
def badSignal : Signal :=
  { name := "Bad", args := [{ name := some "z", direction := none, ty := "!!not-a-sig" }] }

/-- Sample method with an `in` argument followed by two `out` arguments. -/
def getRole : Method :=
  { name := "GetRole",
    args := [{ name := some "x", direction := some "in", ty := "q" },
             { name := some "role", direction := some "out", ty := "u" },
             { name := some "extra", direction := some "out", ty := "s" }] }

/-- Sample method with no `out`-direction argument. -/
def noOutMethod : Method :=
  { name := "NoOut", args := [{ name := some "x", direction := some "in", ty := "i" }] }

/-- Sample method whose name coincides with a signal's. -/
def sharedMethod : Method :=
  { name := "Shared", args := [{ name := some "m", direction := some "out", ty := "d" }] }

/-- Sample method whose `out` argument carries a malformed type string. -/
def badMethod : Method :=
  { name := "BadOut", args := [{ name := some "y", direction := some "out", ty := "%%%" }] }

/-- The sample interface. -/
def cacheInterface : Interface :=
  { name := "org.a11y.atspi.Cache",
    methods := [getRole, noOutMethod, sharedMethod, badMethod],
    signals := [addAccessible, emptySignal, sharedSignal, badSignal] }

/-- The sample parsed document. -/
def sampleNode : Node := { interfaces := [cacheInterface] }

/-- Claim C1: for every signal with arguments whose type strings in
declaration order are `t1..tN`, the event-body composer returns exactly the
signature `"(" ++ t1 ++ ... ++ tN ++ ")"`.  The right-hand side depends only
on the list of type strings, never on the arguments' names or directions, and
for a zero-argument signal it is `"()"` since the join of the empty list is
the empty string. -/
theorem atspi_event_signature_is_parenthesized_concat (node : Node)
    (interface_name member_name : String) (iface : Interface) (signal : Signal)
    (hif : node.interfaces.find? (fun i => i.name == interface_name) = some iface)
    (hsig : iface.signals.find? (fun s => s.name == member_name) = some signal) :
    get_signature_of_atspi_event_from_xml node interface_name member_name =
      .ok ("(" ++ String.join (signal.args.map (fun a => a.ty)) ++ ")") := by
  simp only [get_signature_of_atspi_event_from_xml, hif, hsig,
    Signature.from_string_unchecked]

/-- Witness for C1 at concrete documents: a zero-argument signal composes to
`"()"`, and the four-argument `AddAccessible` composes to the concatenation of
its type strings in declaration order, wrapped in parentheses. -/
theorem atspi_event_signature_is_parenthesized_concat_witness :
    get_signature_of_atspi_event_from_xml sampleNode "org.a11y.atspi.Cache" "Empty" =
      .ok "()"
    ∧ get_signature_of_atspi_event_from_xml sampleNode "org.a11y.atspi.Cache" "AddAccessible" =
      .ok "(iu((so)(so)(so)iiassusau)s)" := by
  constructor
  · have h := atspi_event_signature_is_parenthesized_concat sampleNode
      "org.a11y.atspi.Cache" "Empty" cacheInterface emptySignal (by decide) (by decide)
    simpa [emptySignal, String.join] using h
  · have h := atspi_event_signature_is_parenthesized_concat sampleNode
      "org.a11y.atspi.Cache" "AddAccessible" cacheInterface addAccessible
      (by decide) (by decide)
    simpa [addAccessible, cacheSignalArgs, String.join] using h

/-- Claim C4: when no interface of the document bears the requested name
(exact, case-sensitive, full-string comparison), each of the three resolvers
returns the typed error `InterfaceNotFound`; none panics or returns a
defaulted signature. -/
theorem unknown_interface_yields_interface_not_found (node : Node)
    (interface_name member_name : String) (kind : Option String)
    (h : ∀ iface ∈ node.interfaces, iface.name ≠ interface_name) :
    get_signature_of_signal_body_type node interface_name member_name kind =
      .error .interfaceNotFound
    ∧ get_signature_of_method_return_type_from_xml node interface_name member_name =
      .error .interfaceNotFound
    ∧ get_signature_of_atspi_event_from_xml node interface_name member_name =
      .error .interfaceNotFound := by
  have hnone : node.interfaces.find? (fun i => i.name == interface_name) = none := by
    apply find?_eq_none_of_all
    intro x hx
    simpa using h x hx
  refine ⟨?_, ?_, ?_⟩ <;>
    simp [get_signature_of_signal_body_type,
      get_signature_of_method_return_type_from_xml,
      get_signature_of_atspi_event_from_xml, hnone]

/-- Witness for C4: the sample document has no interface named
`org.example.Missing`, and all three resolvers report `InterfaceNotFound`. -/
theorem unknown_interface_yields_interface_not_found_witness :
    get_signature_of_signal_body_type sampleNode "org.example.Missing" "AddAccessible"
        (some "nodeAdded") = .error .interfaceNotFound
    ∧ get_signature_of_method_return_type_from_xml sampleNode "org.example.Missing"
        "AddAccessible" = .error .interfaceNotFound
    ∧ get_signature_of_atspi_event_from_xml sampleNode "org.example.Missing"
        "AddAccessible" = .error .interfaceNotFound :=
  unknown_interface_yields_interface_not_found sampleNode "org.example.Missing"
    "AddAccessible" (some "nodeAdded") (by decide)

/-- Claim C2: the method-return resolver returns the signature of the first
argument in declaration order whose direction is `out` (later `out` arguments
are ignored), and when no argument is direction-tagged `out` it fails with the
no-output-argument error (`MissingParameter` carrying the literal message the
source supplies). -/
theorem method_return_is_first_out_argument (node : Node)
    (interface_name member_name : String) (iface : Interface) (method : Method)
    (hif : node.interfaces.find? (fun i => i.name == interface_name) = some iface)
    (hm : iface.methods.find? (fun m => m.name == member_name) = some method) :
    (∀ (i : Nat) (hi : i < method.args.length),
        (method.args.get ⟨i, hi⟩).direction = some "out" →
        (∀ (j : Nat) (hj : j < i),
          (method.args.get ⟨j, Nat.lt_trans hj hi⟩).direction ≠ some "out") →
        get_signature_of_method_return_type_from_xml node interface_name member_name =
          .ok (method.args.get ⟨i, hi⟩).ty)
    ∧ ((∀ arg ∈ method.args, arg.direction ≠ some "out") →
        get_signature_of_method_return_type_from_xml node interface_name member_name =
          .error (.missingParameter
            "no argument with \x27out\x27 direction in \x7bargs:?\x7d")) := by
  constructor
  · intro i hi hout hfirst
    have hfind : method.args.find? (fun arg => arg.direction == some "out") =
        some (method.args.get ⟨i, hi⟩) := by
      apply find?_eq_get_of_first
      · simpa using hout
      · intro j hj
        simpa using hfirst j hj
    simp only [get_signature_of_method_return_type_from_xml, hif, hm, hfind,
      Signature.from_string_unchecked]
  · intro hall
    have hfind : method.args.find? (fun arg => arg.direction == some "out") = none := by
      apply find?_eq_none_of_all
      intro x hx
      simpa using hall x hx
    simp only [get_signature_of_method_return_type_from_xml, hif, hm, hfind]

/-- Witness for C2: `GetRole` declares `in q`, `out u`, `out s`; the resolver
returns `"u"`, the first `out` argument, ignoring the second one.  `NoOut`
declares only an `in` argument and yields the no-output-argument error. -/
theorem method_return_is_first_out_argument_witness :
    get_signature_of_method_return_type_from_xml sampleNode "org.a11y.atspi.Cache"
        "GetRole" = .ok "u"
    ∧ get_signature_of_method_return_type_from_xml sampleNode "org.a11y.atspi.Cache"
        "NoOut" = .error (.missingParameter
          "no argument with \x27out\x27 direction in \x7bargs:?\x7d") := by
  constructor
  · have h := (method_return_is_first_out_argument sampleNode "org.a11y.atspi.Cache"
      "GetRole" cacheInterface getRole (by decide) (by decide)).1 1 (by decide)
      (by decide) (fun j hj => by
        have hj0 : j = 0 := by omega
        subst hj0
        simp [getRole])
    simpa [getRole] using h
  · have h := (method_return_is_first_out_argument sampleNode "org.a11y.atspi.Cache"
      "NoOut" cacheInterface noOutMethod (by decide) (by decide)).2 (by decide)
    exact h

/-- Claim C3: the signal-argument resolver with a requested name returns the
type signature of the first argument whose name equals the requested one by
exact, case-sensitive string comparison, and fails with the argument-not-found
error when no argument name matches — so differently-cased names never
match. -/
theorem signal_argument_lookup_is_exact_case_sensitive (node : Node)
    (interface_name member_name req : String) (iface : Interface) (signal : Signal)
    (hif : node.interfaces.find? (fun i => i.name == interface_name) = some iface)
    (hsig : iface.signals.find? (fun s => s.name == member_name) = some signal) :
    (∀ (i : Nat) (hi : i < signal.args.length),
        (signal.args.get ⟨i, hi⟩).name = some req →
        (∀ (j : Nat) (hj : j < i),
          (signal.args.get ⟨j, Nat.lt_trans hj hi⟩).name ≠ some req) →
        get_signature_of_signal_body_type node interface_name member_name (some req) =
          .ok (signal.args.get ⟨i, hi⟩).ty)
    ∧ ((∀ arg ∈ signal.args, arg.name ≠ some req) →
        get_signature_of_signal_body_type node interface_name member_name (some req) =
          .error (.missingParameter "no \x7bkind\x7d found in \x7bargs:?\x7d")) := by
  constructor
  · intro i hi hname hfirst
    have hfind : signal.args.find? (fun arg => arg.name == some req) =
        some (signal.args.get ⟨i, hi⟩) := by
      apply find?_eq_get_of_first
      · simpa using hname
      · intro j hj
        simpa using hfirst j hj
    simp only [get_signature_of_signal_body_type, hif, hsig, hfind,
      Signature.from_string_unchecked]
  · intro hall
    have hfind : signal.args.find? (fun arg => arg.name == some req) = none := by
      apply find?_eq_none_of_all
      intro x hx
      simpa using hall x hx
    simp only [get_signature_of_signal_body_type, hif, hsig, hfind]

/-- Witness for C3: in `AddAccessible` the arguments named `NodeAdded` and
`nodeadded` precede the one named `nodeAdded`; requesting `nodeAdded` skips
both case variants and returns the third argument's type, and requesting a
name carried by no argument yields the argument-not-found error. -/
theorem signal_argument_lookup_is_exact_case_sensitive_witness :
    get_signature_of_signal_body_type sampleNode "org.a11y.atspi.Cache" "AddAccessible"
        (some "nodeAdded") = .ok "((so)(so)(so)iiassusau)"
    ∧ get_signature_of_signal_body_type sampleNode "org.a11y.atspi.Cache" "AddAccessible"
        (some "absent") = .error (.missingParameter
          "no \x7bkind\x7d found in \x7bargs:?\x7d") := by
  constructor
  · have h := (signal_argument_lookup_is_exact_case_sensitive sampleNode
      "org.a11y.atspi.Cache" "AddAccessible" "nodeAdded" cacheInterface addAccessible
      (by decide) (by decide)).1 2 (by decide) (by decide) (fun j hj => by
        interval_cases j <;> simp [addAccessible, cacheSignalArgs])
    simpa [addAccessible, cacheSignalArgs] using h
  · exact (signal_argument_lookup_is_exact_case_sensitive sampleNode
      "org.a11y.atspi.Cache" "AddAccessible" "absent" cacheInterface addAccessible
      (by decide) (by decide)).2 (by decide)

/-- Claim C5 (refuting evaluation): when the signal-argument lookup fails, the
error carries the fixed literal message `no {kind} found in {args:?}` with the
placeholders left uninterpolated — two requests for different absent argument
names produce the identical error, so the message names neither the signal nor
the actual available argument names (`NodeAdded`, `nodeadded`, `nodeAdded`),
contrary to the claim. -/
theorem signal_argument_error_is_uninterpolated_literal :
    get_signature_of_signal_body_type sampleNode "org.a11y.atspi.Cache" "AddAccessible"
        (some "missingArg") = .error (.missingParameter
          "no \x7bkind\x7d found in \x7bargs:?\x7d")
    ∧ get_signature_of_signal_body_type sampleNode "org.a11y.atspi.Cache" "AddAccessible"
        (some "otherMissing") = .error (.missingParameter
          "no \x7bkind\x7d found in \x7bargs:?\x7d") := by
  constructor <;> rfl

/-- Claim C6: member lookup is scoped by collection.  Whenever the interface's
own signal list has no member of the requested name, both signal resolvers
fail with the member-not-found error — regardless of what the method list
contains; symmetrically, whenever the method list has no member of that name,
the method resolver fails — regardless of the signal list.  A method and a
signal may therefore share a name without ambiguity. -/
theorem member_lookup_scoped_by_collection (node : Node)
    (interface_name member_name : String) (kind : Option String) (iface : Interface)
    (hif : node.interfaces.find? (fun i => i.name == interface_name) = some iface) :
    ((∀ s ∈ iface.signals, s.name ≠ member_name) →
        get_signature_of_signal_body_type node interface_name member_name kind =
          .error (.missingParameter "no \x7bmember_name\x7d found in \x7bsignals:?\x7d")
        ∧ get_signature_of_atspi_event_from_xml node interface_name member_name =
          .error (.missingParameter "no \x7bmember_name\x7d found in \x7bsignals:?\x7d"))
    ∧ ((∀ m ∈ iface.methods, m.name ≠ member_name) →
        get_signature_of_method_return_type_from_xml node interface_name member_name =
          .error (.missingParameter "no \x7bmember_name\x7d found in \x7bmethods:?\x7d")) := by
  constructor
  · intro hs
    have hfind : iface.signals.find? (fun s => s.name == member_name) = none := by
      apply find?_eq_none_of_all
      intro x hx
      simpa using hs x hx
    constructor
    · simp [get_signature_of_signal_body_type, hif, hfind]
    · simp [get_signature_of_atspi_event_from_xml, hif, hfind]
  · intro hm
    have hfind : iface.methods.find? (fun m => m.name == member_name) = none := by
      apply find?_eq_none_of_all
      intro x hx
      simpa using hm x hx
    simp [get_signature_of_method_return_type_from_xml, hif, hfind]

/-- Witness for C6: `GetRole` exists only as a method, so the signal resolvers
report member-not-found for it; `AddAccessible` exists only as a signal, so
the method resolver reports member-not-found for it — in a document where the
name is present in the other collection. -/
theorem member_lookup_scoped_by_collection_witness :
    get_signature_of_signal_body_type sampleNode "org.a11y.atspi.Cache" "GetRole"
        (some "role") = .error (.missingParameter
          "no \x7bmember_name\x7d found in \x7bsignals:?\x7d")
    ∧ get_signature_of_atspi_event_from_xml sampleNode "org.a11y.atspi.Cache" "GetRole" =
        .error (.missingParameter "no \x7bmember_name\x7d found in \x7bsignals:?\x7d")
    ∧ get_signature_of_method_return_type_from_xml sampleNode "org.a11y.atspi.Cache"
        "AddAccessible" = .error (.missingParameter
          "no \x7bmember_name\x7d found in \x7bmethods:?\x7d") := by
  have h1 := (member_lookup_scoped_by_collection sampleNode "org.a11y.atspi.Cache"
    "GetRole" (some "role") cacheInterface (by decide)).1 (by decide)
  have h2 := (member_lookup_scoped_by_collection sampleNode "org.a11y.atspi.Cache"
    "AddAccessible" (some "role") cacheInterface (by decide)).2 (by decide)
  exact ⟨h1.1, h1.2, h2⟩

/-- Claim C9: with `kind = none` the signal-argument resolver matches exactly
the arguments carrying no name attribute: it returns the type signature of the
first unnamed argument in declaration order, and fails with the
argument-not-found error when every argument is named. -/
theorem none_kind_matches_first_unnamed_argument (node : Node)
    (interface_name member_name : String) (iface : Interface) (signal : Signal)
    (hif : node.interfaces.find? (fun i => i.name == interface_name) = some iface)
    (hsig : iface.signals.find? (fun s => s.name == member_name) = some signal) :
    (∀ (i : Nat) (hi : i < signal.args.length),
        (signal.args.get ⟨i, hi⟩).name = none →
        (∀ (j : Nat) (hj : j < i),
          (signal.args.get ⟨j, Nat.lt_trans hj hi⟩).name ≠ none) →
        get_signature_of_signal_body_type node interface_name member_name none =
          .ok (signal.args.get ⟨i, hi⟩).ty)
    ∧ ((∀ arg ∈ signal.args, arg.name ≠ none) →
        get_signature_of_signal_body_type node interface_name member_name none =
          .error (.missingParameter "no \x7bkind\x7d found in \x7bargs:?\x7d")) := by
  constructor
  · intro i hi hname hfirst
    have hfind : signal.args.find? (fun arg => arg.name == none) =
        some (signal.args.get ⟨i, hi⟩) := by
      apply find?_eq_get_of_first
      · simpa using hname
      · intro j hj
        simpa using hfirst j hj
    simp only [get_signature_of_signal_body_type, hif, hsig, hfind,
      Signature.from_string_unchecked]
  · intro hall
    have hfind : signal.args.find? (fun arg => arg.name == none) = none := by
      apply find?_eq_none_of_all
      intro x hx
      simpa using hall x hx
    simp only [get_signature_of_signal_body_type, hif, hsig, hfind]

/-- Witness for C9: in `AddAccessible` the fourth argument is the only unnamed
one, and the resolver invoked with `kind = none` returns its type `"s"`; on
the fully-named `Shared` signal the same invocation fails with the
argument-not-found error. -/
theorem none_kind_matches_first_unnamed_argument_witness :
    get_signature_of_signal_body_type sampleNode "org.a11y.atspi.Cache" "AddAccessible"
        none = .ok "s"
    ∧ get_signature_of_signal_body_type sampleNode "org.a11y.atspi.Cache" "Shared"
        none = .error (.missingParameter "no \x7bkind\x7d found in \x7bargs:?\x7d") := by
  constructor
  · have h := (none_kind_matches_first_unnamed_argument sampleNode
      "org.a11y.atspi.Cache" "AddAccessible" cacheInterface addAccessible
      (by decide) (by decide)).1 3 (by decide) (by decide) (fun j hj => by
        interval_cases j <;> simp [addAccessible, cacheSignalArgs])
    simpa [addAccessible, cacheSignalArgs] using h
  · exact (none_kind_matches_first_unnamed_argument sampleNode
      "org.a11y.atspi.Cache" "Shared" cacheInterface sharedSignal
      (by decide) (by decide)).2 (by decide)

/-- Claim C7: whatever string the selected argument's `ty` holds — including a
malformed one — the resolvers return it verbatim inside the `Signature`
(`from_string_unchecked` validates nothing), and the composer places every
argument's type string verbatim inside the parenthesized aggregate; no error
path inspects a type string. -/
theorem type_strings_propagate_unvalidated (node : Node)
    (interface_name member_name : String) (kind : Option String) :
    (∀ (iface : Interface) (signal : Signal) (arg : Arg),
        node.interfaces.find? (fun i => i.name == interface_name) = some iface →
        iface.signals.find? (fun s => s.name == member_name) = some signal →
        signal.args.find? (fun a => a.name == kind) = some arg →
        get_signature_of_signal_body_type node interface_name member_name kind =
          .ok arg.ty)
    ∧ (∀ (iface : Interface) (method : Method) (arg : Arg),
        node.interfaces.find? (fun i => i.name == interface_name) = some iface →
        iface.methods.find? (fun m => m.name == member_name) = some method →
        method.args.find? (fun a => a.direction == some "out") = some arg →
        get_signature_of_method_return_type_from_xml node interface_name member_name =
          .ok arg.ty)
    ∧ (∀ (iface : Interface) (signal : Signal),
        node.interfaces.find? (fun i => i.name == interface_name) = some iface →
        iface.signals.find? (fun s => s.name == member_name) = some signal →
        get_signature_of_atspi_event_from_xml node interface_name member_name =
          .ok ("(" ++ String.join (signal.args.map (fun a => a.ty)) ++ ")")) := by
  refine ⟨?_, ?_, ?_⟩
  · intro iface signal arg hif hsig harg
    simp only [get_signature_of_signal_body_type, hif, hsig, harg,
      Signature.from_string_unchecked]
  · intro iface method arg hif hm harg
    simp only [get_signature_of_method_return_type_from_xml, hif, hm, harg,
      Signature.from_string_unchecked]
  · intro iface signal hif hsig
    simp only [get_signature_of_atspi_event_from_xml, hif, hsig,
      Signature.from_string_unchecked]

/-- Witness for C7 at malformed type strings: the `Bad` signal's argument
carries `"!!not-a-sig"` and the `BadOut` method's `out` argument carries
`"%%%"`; all three resolvers return them verbatim instead of rejecting
them. -/
theorem type_strings_propagate_unvalidated_witness :
    get_signature_of_signal_body_type sampleNode "org.a11y.atspi.Cache" "Bad"
        (some "z") = .ok "!!not-a-sig"
    ∧ get_signature_of_method_return_type_from_xml sampleNode "org.a11y.atspi.Cache"
        "BadOut" = .ok "%%%"
    ∧ get_signature_of_atspi_event_from_xml sampleNode "org.a11y.atspi.Cache" "Bad" =
        .ok "(!!not-a-sig)" := by
  refine ⟨?_, ?_, ?_⟩
  · have h := (type_strings_propagate_unvalidated sampleNode "org.a11y.atspi.Cache"
      "Bad" (some "z")).1 cacheInterface badSignal
      { name := some "z", direction := none, ty := "!!not-a-sig" }
      (by decide) (by decide) (by decide)
    exact h
  · have h := (type_strings_propagate_unvalidated sampleNode "org.a11y.atspi.Cache"
      "BadOut" (some "z")).2.1 cacheInterface badMethod
      { name := some "y", direction := some "out", ty := "%%%" }
      (by decide) (by decide) (by decide)
    exact h
  · have h := (type_strings_propagate_unvalidated sampleNode "org.a11y.atspi.Cache"
      "Bad" (some "z")).2.2 cacheInterface badSignal (by decide) (by decide)
    simpa [badSignal, String.join] using h

/-- Claim C8: each resolver is a pure function of the parsed document content
and the name inputs — in the embedding the three resolvers consume no state
besides their arguments, so two invocations with identical inputs always
produce identical results (byte-identical signatures or identical errors). -/
theorem resolvers_deterministic (node : Node)
    (interface_name member_name : String) (kind : Option String) :
    (∀ r1 r2 : Except ZbusError Signature,
        get_signature_of_signal_body_type node interface_name member_name kind = r1 →
        get_signature_of_signal_body_type node interface_name member_name kind = r2 →
        r1 = r2)
    ∧ (∀ r1 r2 : Except ZbusError Signature,
        get_signature_of_method_return_type_from_xml node interface_name member_name = r1 →
        get_signature_of_method_return_type_from_xml node interface_name member_name = r2 →
        r1 = r2)
    ∧ (∀ r1 r2 : Except ZbusError Signature,
        get_signature_of_atspi_event_from_xml node interface_name member_name = r1 →
        get_signature_of_atspi_event_from_xml node interface_name member_name = r2 →
        r1 = r2) :=
  ⟨fun _ _ h1 h2 => h1 ▸ h2, fun _ _ h1 h2 => h1 ▸ h2, fun _ _ h1 h2 => h1 ▸ h2⟩

/-- Witness for C8: two evaluations of each resolver on the same concrete
inputs are equal. -/
theorem resolvers_deterministic_witness :
    (Except.ok "((so)(so)(so)iiassusau)" : Except ZbusError Signature) =
        .ok "((so)(so)(so)iiassusau)"
    ∧ (Except.ok "u" : Except ZbusError Signature) = .ok "u"
    ∧ (Except.ok "(iu((so)(so)(so)iiassusau)s)" : Except ZbusError Signature) =
        .ok "(iu((so)(so)(so)iiassusau)s)" := by
  have h := resolvers_deterministic sampleNode "org.a11y.atspi.Cache" "AddAccessible"
    (some "nodeAdded")
  refine ⟨h.1 _ _ rfl rfl, ?_, h.2.2 _ _ rfl rfl⟩
  have h2 := resolvers_deterministic sampleNode "org.a11y.atspi.Cache" "GetRole"
    (some "nodeAdded")
  exact h2.2.1 _ _ rfl rfl

/-- Claim C10: every member-not-found, argument-not-found and
no-output-argument failure carries a fixed literal message with the
placeholder text uninterpolated; the messages below are string constants of
the statement, independent of every quantified input, so the actual member
name, argument name and available argument names never appear in them. -/
theorem lookup_error_messages_are_fixed_literals (node : Node)
    (interface_name member_name : String) (kind : Option String) (iface : Interface)
    (hif : node.interfaces.find? (fun i => i.name == interface_name) = some iface) :
    ((∀ s ∈ iface.signals, s.name ≠ member_name) →
        get_signature_of_signal_body_type node interface_name member_name kind =
          .error (.missingParameter "no \x7bmember_name\x7d found in \x7bsignals:?\x7d")
        ∧ get_signature_of_atspi_event_from_xml node interface_name member_name =
          .error (.missingParameter "no \x7bmember_name\x7d found in \x7bsignals:?\x7d"))
    ∧ ((∀ m ∈ iface.methods, m.name ≠ member_name) →
        get_signature_of_method_return_type_from_xml node interface_name member_name =
          .error (.missingParameter "no \x7bmember_name\x7d found in \x7bmethods:?\x7d"))
    ∧ (∀ signal : Signal,
        iface.signals.find? (fun s => s.name == member_name) = some signal →
        (∀ arg ∈ signal.args, arg.name ≠ kind) →
        get_signature_of_signal_body_type node interface_name member_name kind =
          .error (.missingParameter "no \x7bkind\x7d found in \x7bargs:?\x7d"))
    ∧ (∀ method : Method,
        iface.methods.find? (fun m => m.name == member_name) = some method →
        (∀ arg ∈ method.args, arg.direction ≠ some "out") →
        get_signature_of_method_return_type_from_xml node interface_name member_name =
          .error (.missingParameter
            "no argument with \x27out\x27 direction in \x7bargs:?\x7d")) := by
  refine ⟨?_, ?_, ?_, ?_⟩
  · intro hs
    have hfind : iface.signals.find? (fun s => s.name == member_name) = none :=
      find?_eq_none_of_all _ _ (fun x hx => by simpa using hs x hx)
    constructor
    · simp [get_signature_of_signal_body_type, hif, hfind]
    · simp [get_signature_of_atspi_event_from_xml, hif, hfind]
  · intro hm
    have hfind : iface.methods.find? (fun m => m.name == member_name) = none :=
      find?_eq_none_of_all _ _ (fun x hx => by simpa using hm x hx)
    simp [get_signature_of_method_return_type_from_xml, hif, hfind]
  · intro signal hsig hall
    have hfind : signal.args.find? (fun a => a.name == kind) = none :=
      find?_eq_none_of_all _ _ (fun x hx => by simpa using hall x hx)
    simp [get_signature_of_signal_body_type, hif, hsig, hfind]
  · intro method hm hall
    have hfind : method.args.find? (fun a => a.direction == some "out") = none :=
      find?_eq_none_of_all _ _ (fun x hx => by simpa using hall x hx)
    simp [get_signature_of_method_return_type_from_xml, hif, hm, hfind]

/-- Witness for C10: a missing member name and a missing argument name both
hit the fixed literal messages on the sample document; the requested names
(`Vanished`, `missing`) appear nowhere in them. -/
theorem lookup_error_messages_are_fixed_literals_witness :
    get_signature_of_signal_body_type sampleNode "org.a11y.atspi.Cache" "Vanished"
        (some "missing") = .error (.missingParameter
          "no \x7bmember_name\x7d found in \x7bsignals:?\x7d")
    ∧ get_signature_of_method_return_type_from_xml sampleNode "org.a11y.atspi.Cache"
        "Vanished" = .error (.missingParameter
          "no \x7bmember_name\x7d found in \x7bmethods:?\x7d")
    ∧ get_signature_of_signal_body_type sampleNode "org.a11y.atspi.Cache" "Shared"
        (some "missing") = .error (.missingParameter
          "no \x7bkind\x7d found in \x7bargs:?\x7d")
    ∧ get_signature_of_method_return_type_from_xml sampleNode "org.a11y.atspi.Cache"
        "NoOut" = .error (.missingParameter
          "no argument with \x27out\x27 direction in \x7bargs:?\x7d") := by
  have h1 := lookup_error_messages_are_fixed_literals sampleNode "org.a11y.atspi.Cache"
    "Vanished" (some "missing") cacheInterface (by decide)
  have h2 := lookup_error_messages_are_fixed_literals sampleNode "org.a11y.atspi.Cache"
    "Shared" (some "missing") cacheInterface (by decide)
  have h3 := lookup_error_messages_are_fixed_literals sampleNode "org.a11y.atspi.Cache"
    "NoOut" (some "missing") cacheInterface (by decide)
  exact ⟨(h1.1 (by decide)).1, h1.2.1 (by decide),
    h2.2.2.1 sharedSignal (by decide) (by decide),
    h3.2.2.2 noOutMethod (by decide) (by decide)⟩

end ZbusXmlMatch
